import Mathlib

/-!
Verification of the thumbor-es URL assembly and signing pipeline.

The definitions below are a shallow embedding of the repository's source:
* src/hmac.ts  — HMAC-SHA1 over UTF-8 bytes (WebCrypto `crypto.subtle.sign`
  with `{ name: "HMAC", hash: "SHA-1" }`, an external primitive embedded here
  by its standard definition, RFC 2104 / FIPS 180-4);
* `encodeBase64` from `@std/encoding/base64` — standard RFC 4648 base64 with
  padding, an external primitive embedded by its standard definition;
* src/url.ts   — the option validator, config-string assembler, signer and
  host-resolution step (`buildThumborUrl`).

Bytes are `Nat` values below 256; 32-bit machine words are `Nat` values
reduced modulo 2 ^ 32 at every arithmetic step.
-/

set_option maxRecDepth 100000

namespace Thumbor

/-- 2 ^ 32, the modulus for 32-bit words. -/
def M32 : Nat := 4294967296

/-- Rotate a 32-bit word left by `n` bits (0 < n < 32). -/
def rotl32 (x n : Nat) : Nat := ((x <<< n) ||| (x >>> (32 - n))) % M32

/-- UTF-8 encoding of one Unicode scalar value (the `TextEncoder` primitive). -/
def utf8EncodeChar (c : Char) : List Nat :=
  let n := c.toNat
  if n < 128 then [n]
  else if n < 2048 then [192 + n / 64, 128 + n % 64]
  else if n < 65536 then [224 + n / 4096, 128 + (n / 64) % 64, 128 + n % 64]
  else [240 + n / 262144, 128 + (n / 4096) % 64, 128 + (n / 64) % 64, 128 + n % 64]

/-- UTF-8 encoding of a string as a byte list (the `TextEncoder` primitive). -/
def utf8Encode (s : String) : List Nat := (s.data.map utf8EncodeChar).flatten

/-- SHA-1 message padding: append 0x80, zeros to 56 mod 64, and the 64-bit
big-endian bit length. -/
def sha1Pad (msg : List Nat) : List Nat :=
  let L := msg.length
  let zeros := (64 - ((L + 9) % 64)) % 64
  let bitLen := 8 * L
  msg ++ [128] ++ List.replicate zeros 0 ++
    [(bitLen >>> 56) % 256, (bitLen >>> 48) % 256, (bitLen >>> 40) % 256,
     (bitLen >>> 32) % 256, (bitLen >>> 24) % 256, (bitLen >>> 16) % 256,
     (bitLen >>> 8) % 256, bitLen % 256]

/-- Split a byte list into 64-byte blocks; `fuel` bounds the recursion depth
so that the recursion is structural (each step consumes at least one byte, so
`l.length` steps always suffice). -/
def chunks64Go : Nat → List Nat → List (List Nat)
  | _, [] => []
  | 0, _ :: _ => []
  | fuel + 1, a :: rest => ((a :: rest).take 64) :: chunks64Go fuel ((a :: rest).drop 64)

/-- Split a byte list into 64-byte blocks. -/
def chunks64 (l : List Nat) : List (List Nat) := chunks64Go l.length l

/-- Pack bytes into 32-bit big-endian words. -/
def toWords : List Nat → List Nat
  | b0 :: b1 :: b2 :: b3 :: rest =>
    (((b0 * 256 + b1) * 256 + b2) * 256 + b3) :: toWords rest
  | _ => []

/-- Extend 16 words of a block to the 80-word SHA-1 message schedule. -/
def sha1Extend (ws : List Nat) : List Nat :=
  (List.range 64).foldl
    (fun acc j =>
      let i := j + 16
      let w := rotl32 (((acc.getD (i - 3) 0) ^^^ (acc.getD (i - 8) 0)) ^^^
                       ((acc.getD (i - 14) 0) ^^^ (acc.getD (i - 16) 0))) 1
      acc ++ [w]) ws

/-- The SHA-1 round function for round `t`. -/
def sha1F (t b c d : Nat) : Nat :=
  if t < 20 then (b &&& c) ||| ((b ^^^ 4294967295) &&& d)
  else if t < 40 then (b ^^^ c) ^^^ d
  else if t < 60 then ((b &&& c) ||| (b &&& d)) ||| (c &&& d)
  else (b ^^^ c) ^^^ d

/-- The SHA-1 round constant for round `t`. -/
def sha1K (t : Nat) : Nat :=
  if t < 20 then 1518500249
  else if t < 40 then 1859775393
  else if t < 60 then 2400959708
  else 3395469782

/-- Process one 64-byte block, updating the five-word SHA-1 state. -/
def sha1Block (h : Nat × Nat × Nat × Nat × Nat) (block : List Nat) :
    Nat × Nat × Nat × Nat × Nat :=
  let ws := sha1Extend (toWords block)
  let fin := (List.range 80).foldl
    (fun st t =>
      let (a, b, c, d, e) := st
      let temp := (rotl32 a 5 + sha1F t b c d + e + sha1K t + ws.getD t 0) % M32
      (temp, a, rotl32 b 30, c, d)) h
  match h, fin with
  | (h0, h1, h2, h3, h4), (a, b, c, d, e) =>
    ((h0 + a) % M32, (h1 + b) % M32, (h2 + c) % M32, (h3 + d) % M32, (h4 + e) % M32)

/-- Big-endian bytes of a 32-bit word. -/
def wordBytes (w : Nat) : List Nat :=
  [(w >>> 24) % 256, (w >>> 16) % 256, (w >>> 8) % 256, w % 256]

/-- SHA-1 of a byte list (FIPS 180-4), producing the 20-byte digest. -/
def sha1 (msg : List Nat) : List Nat :=
  let fin := (chunks64 (sha1Pad msg)).foldl sha1Block
    (1732584193, 4023233417, 2562383102, 271733878, 3285377520)
  match fin with
  | (h0, h1, h2, h3, h4) =>
    wordBytes h0 ++ wordBytes h1 ++ wordBytes h2 ++ wordBytes h3 ++ wordBytes h4

/-- HMAC-SHA1 (RFC 2104) with a 64-byte block size: the keyed authentication
code computed by WebCrypto for `{ name: "HMAC", hash: "SHA-1" }`. -/
def hmacBytes (key msg : List Nat) : List Nat :=
  let k0 := if 64 < key.length then sha1 key else key
  let k1 := k0 ++ List.replicate (64 - k0.length) 0
  sha1 ((k1.map (fun b => b ^^^ 92)) ++ sha1 ((k1.map (fun b => b ^^^ 54)) ++ msg))

/-- Embedding of `hmacSha1` (src/hmac.ts): the HMAC-SHA1 signature over the
UTF-8 bytes of `url`, keyed by the UTF-8 bytes of `key`. -/
def hmacSha1 (url key : String) : List Nat :=
  hmacBytes (utf8Encode key) (utf8Encode url)

/-- The standard base64 alphabet (RFC 4648). -/
def b64Alphabet : List Char :=
  "ABCDEFGHIJKLMNOPQRSTUVWXYZabcdefghijklmnopqrstuvwxyz0123456789+/".data

/-- The base64 character for a 6-bit value. -/
def b64Char (n : Nat) : Char := b64Alphabet.getD n 'A'

/-- Standard base64 encoding with padding (the `encodeBase64` primitive of
`@std/encoding/base64`). -/
def encodeBase64 : List Nat → String
  | b0 :: b1 :: b2 :: rest =>
    let n := (b0 * 256 + b1) * 256 + b2
    String.mk [b64Char (n / 262144), b64Char ((n / 4096) % 64),
               b64Char ((n / 64) % 64), b64Char (n % 64)] ++ encodeBase64 rest
  | [b0, b1] =>
    let n := (b0 * 256 + b1) * 256
    String.mk [b64Char (n / 262144), b64Char ((n / 4096) % 64),
               b64Char ((n / 64) % 64), '=']
  | [b0] =>
    let n := b0 * 65536
    String.mk [b64Char (n / 262144), b64Char ((n / 4096) % 64), '=', '=']
  | [] => ""

/-- Sanity vector: SHA-1 of "abc" (FIPS 180-4 appendix A.1). -/
theorem sha1_vector_abc :
    sha1 (utf8Encode "abc") =
      [0xa9, 0x99, 0x3e, 0x36, 0x47, 0x06, 0x81, 0x6a, 0xba, 0x3e,
       0x25, 0x71, 0x78, 0x50, 0xc2, 0x6c, 0x9c, 0xd0, 0xd8, 0x9d] := by
  rfl

/-- Sanity vector: SHA-1 of the empty message. -/
theorem sha1_vector_empty :
    sha1 [] =
      [0xda, 0x39, 0xa3, 0xee, 0x5e, 0x6b, 0x4b, 0x0d, 0x32, 0x55,
       0xbf, 0xef, 0x95, 0x60, 0x18, 0x90, 0xaf, 0xd8, 0x07, 0x09] := by
  rfl

/-- Sanity vector: HMAC-SHA1 test case 2 of RFC 2202. -/
theorem hmac_vector_rfc2202 :
    hmacBytes (utf8Encode "Jefe") (utf8Encode "what do ya want for nothing?") =
      [0xef, 0xfc, 0xdf, 0x6a, 0xe5, 0xeb, 0x2f, 0xa2, 0xd2, 0x74,
       0x16, 0xd5, 0xf1, 0x84, 0xdf, 0x9c, 0x25, 0x9a, 0x7c, 0x79] := by
  rfl

/-- Sanity vector: base64 of "foobar" is "Zm9vYmFy"; padding for short tails. -/
theorem base64_vectors :
    encodeBase64 (utf8Encode "foobar") = "Zm9vYmFy" ∧
    encodeBase64 (utf8Encode "fooba") = "Zm9vYmE=" ∧
    encodeBase64 (utf8Encode "foob") = "Zm9vYg==" := by
  exact ⟨rfl, rfl, rfl⟩

/-- Width or height of a resize: a number (modelled as an integer, as all the
source's numeric checks and renderings are integral) or the literal
original-size sentinel `ORIGINAL_SIZE = "orig"` (src/url.ts line 5). -/
inductive Dim where
  | n (v : Int)
  | orig
deriving DecidableEq, Repr

/-- Rendering of a dimension in a template string: the number, or "orig". -/
def Dim.render : Dim → String
  | Dim.n v => toString v
  | Dim.orig => "orig"

/-- The crop rectangle (src/url.ts lines 30-39). -/
structure Crop where
  top : Int
  left : Int
  bottom : Int
  right : Int
deriving DecidableEq, Repr

/-- Orientation from where to get the pixel color for trim (src/url.ts line 15). -/
inductive TrimPixelColor where
  | topLeft
  | bottomRight
deriving DecidableEq, Repr

/-- Rendering of a trim pixel color. -/
def TrimPixelColor.render : TrimPixelColor → String
  | TrimPixelColor.topLeft => "top-left"
  | TrimPixelColor.bottomRight => "bottom-right"

/-- The `trim` option: boolean flag or a record; in the record, `value` may be
absent at runtime (the source guards `!value`) and `colorTolerance` is
optional with default 0 (src/url.ts lines 43-54 and 207-217). -/
inductive Trim where
  | flag (b : Bool)
  | record (value : Option TrimPixelColor) (colorTolerance : Option Int)
deriving DecidableEq, Repr

/-- Style of resizing for fit-in (src/url.ts line 21). -/
inductive FitInStyle where
  | fitIn
  | fullFitIn
  | adaptiveFitIn
deriving DecidableEq, Repr

/-- Rendering of a fit-in style. -/
def FitInStyle.render : FitInStyle → String
  | FitInStyle.fitIn => "fit-in"
  | FitInStyle.fullFitIn => "full-fit-in"
  | FitInStyle.adaptiveFitIn => "adaptive-fit-in"

/-- The `fitIn` option: a style or a boolean shorthand (src/url.ts line 64). -/
inductive FitIn where
  | flag (b : Bool)
  | style (s : FitInStyle)
deriving DecidableEq, Repr

/-- Horizontal alignment (src/url.ts line 10). -/
inductive HorizontalAlign where
  | left
  | center
  | right
deriving DecidableEq, Repr

/-- Rendering of a horizontal alignment. -/
def HorizontalAlign.render : HorizontalAlign → String
  | HorizontalAlign.left => "left"
  | HorizontalAlign.center => "center"
  | HorizontalAlign.right => "right"

/-- Vertical alignment (src/url.ts line 12). -/
inductive VerticalAlign where
  | top
  | middle
  | bottom
deriving DecidableEq, Repr

/-- Rendering of a vertical alignment. -/
def VerticalAlign.render : VerticalAlign → String
  | VerticalAlign.top => "top"
  | VerticalAlign.middle => "middle"
  | VerticalAlign.bottom => "bottom"

/-- The `endpoint` option (src/url.ts line 132). -/
inductive Endpoint where
  | image
  | metadata
deriving DecidableEq, Repr

/-- Resize options (src/url.ts lines 102-105). -/
structure ResizeOptions where
  width : Dim
  height : Dim
deriving DecidableEq, Repr

/-- The full argument record of `buildThumborUrl`
(`BaseBuildThumborUrlOptions & ThumborUrlResizedOptions`, src/url.ts). -/
structure TransformRequest where
  image : String
  host : Option String := none
  key : Option String := none
  endpoint : Option Endpoint := none
  resize : Option ResizeOptions := none
  crop : Option Crop := none
  trim : Option Trim := none
  fitIn : Option FitIn := none
  smart : Bool := false
  flipHorizontally : Bool := false
  flipVertically : Bool := false
  horizontalAlign : Option HorizontalAlign := none
  verticalAlign : Option VerticalAlign := none
  filters : List String := []
deriving DecidableEq, Repr

/-- The error classes thrown by the source: `TypeError`, `RangeError` and
plain `Error`, each with its message. -/
inductive UrlError where
  | typeError (msg : String)
  | rangeError (msg : String)
  | error (msg : String)
deriving DecidableEq, Repr

/-- The returned URL: `absolute host path` stands for
`new URL(path, host).href` (WHATWG URL resolution, an external primitive left
uninterpreted), and `relative path` is returned as the string `"/" ++ path`
(src/url.ts lines 296-301). -/
inductive ThumborUrl where
  | absolute (host : String) (path : String)
  | relative (path : String)
deriving DecidableEq, Repr

/-- The path component of the result, before host resolution. -/
def ThumborUrl.path : ThumborUrl → String
  | ThumborUrl.absolute _ p => p
  | ThumborUrl.relative p => p

/-- The final returned string, where computable: the relative case returns
`"/" ++ path`; the absolute case is external URL resolution. -/
def ThumborUrl.href : ThumborUrl → Option String
  | ThumborUrl.absolute _ _ => none
  | ThumborUrl.relative p => some ("/" ++ p)

/-- JavaScript whitespace, as recognized by `String.prototype.trim`. -/
def isJsWhitespace (c : Char) : Bool :=
  c == ' ' || c == '\t' || c == '\n' || c == '\r' || c == '\x0b' || c == '\x0c' ||
  c == ' ' || c == ' ' || (0x2000 ≤ c.toNat && c.toNat ≤ 0x200A) ||
  c == ' ' || c == ' ' || c == ' ' || c == ' ' ||
  c == '　' || c == '﻿'

/-- JavaScript `String.prototype.trim`: strip leading and trailing whitespace. -/
def jsTrim (s : String) : String :=
  String.mk (((s.data.dropWhile isJsWhitespace).reverse.dropWhile isJsWhitespace).reverse)

/-- Whether `endpoint === "metadata"` (src/url.ts line 221). -/
def metaOf (r : TransformRequest) : Bool :=
  decide (r.endpoint = some Endpoint.metadata)

/-- JavaScript truthiness of the `trim` option (`!!options.trim`,
src/url.ts line 204): an object is truthy, a boolean is itself. -/
def trimTruthy : Option Trim → Bool
  | none => false
  | some (Trim.flag b) => b
  | some (Trim.record _ _) => true

/-- The `trimPixelColor` local of the source (src/url.ts lines 205-215): the
record's `value` when `trim` is a record, otherwise undefined. -/
def trimPixelColorOf : Option Trim → Option TrimPixelColor
  | some (Trim.record v _) => v
  | _ => none

/-- The `trimColorTolerance` local of the source (src/url.ts lines 206-216):
the record's `colorTolerance` with default 0, otherwise 0. -/
def trimColorToleranceOf : Option Trim → Int
  | some (Trim.record _ t) => t.getD 0
  | _ => 0

/-- The `fitInStyle` local (src/url.ts line 164):
`options.fitIn === true ? "fit-in" : options.fitIn`, then used under
JavaScript truthiness (`false` and undefined are falsy). -/
def resolveFitIn : Option FitIn → Option FitInStyle
  | some (FitIn.flag true) => some FitInStyle.fitIn
  | some (FitIn.flag false) => none
  | some (FitIn.style s) => some s
  | none => none

/-- Whether `typeof d === "number" && d < 0` (src/url.ts lines 177, 180). -/
def dimNeg : Dim → Bool
  | Dim.n v => decide (v < 0)
  | Dim.orig => false

/-- The resize validation block (src/url.ts lines 175-186). -/
def validateResize : Option ResizeOptions → Option UrlError
  | none => none
  | some rz =>
    if dimNeg rz.width then some (UrlError.rangeError "Width must be a positive number.")
    else if dimNeg rz.height then some (UrlError.rangeError "Height must be a positive number.")
    else if rz.width = Dim.n 0 ∧ rz.height = Dim.n 0 then
      some (UrlError.rangeError "Both width and height must not be zero.")
    else none

/-- The crop validation block (src/url.ts lines 188-202). -/
def validateCrop : Option Crop → Option UrlError
  | none => none
  | some c =>
    if c.top < 0 then some (UrlError.error "Top must be greater or equal to zero.")
    else if c.left < 0 then some (UrlError.error "Left must be greater or equal to zero.")
    else if c.bottom < 1 ∨ c.bottom ≤ c.top then
      some (UrlError.error "Bottom must be greater than zero and top.")
    else if c.right < 1 ∨ c.right ≤ c.left then
      some (UrlError.error "Right must be greater than zero and left.")
    else none

/-- The trim validation block (src/url.ts lines 207-217): only a record
(`options.trim && options.trim !== true`) is checked. -/
def validateTrim : Option Trim → Option UrlError
  | some (Trim.record v t) =>
    let tol := t.getD 0
    if tol < 0 ∨ 442 < tol then some (UrlError.rangeError "Color tolerance must be between 0 and 442.")
    else if 0 < tol ∧ v = none then some (UrlError.typeError "Trim pixel color value must be defined.")
    else none
  | _ => none

/-- The validation region of `buildThumborUrl` (src/url.ts lines 166-219),
returning the first violation in the source's check order: image, filters,
resize, crop, trim. -/
def validate (r : TransformRequest) : Option UrlError :=
  if r.image = "" then some (UrlError.typeError "Image must not be blank.")
  else if r.filters.any (fun f => jsTrim f == "") then
    some (UrlError.typeError "Filter must not be blank.")
  else
    match validateResize r.resize with
    | some e => some e
    | none =>
      match validateCrop r.crop with
      | some e => some e
      | none => validateTrim r.trim

/-- Embedding of `assembleConfig` (src/url.ts lines 222-281). Each imperative
conditional `config += …` of the source is rendered as appending the
corresponding conditional string, in the source's order. -/
def assembleConfig (r : TransformRequest) : String :=
  let config := ""
  let config := config ++ (if metaOf r then "meta/" else "")
  let config := config ++
    (if trimTruthy r.trim then
      "trim" ++
        (match trimPixelColorOf r.trim with
         | some pc =>
           ":" ++ pc.render ++
             (if trimColorToleranceOf r.trim ≠ 0 then
               ":" ++ toString (trimColorToleranceOf r.trim)
              else "")
         | none => "") ++ "/"
     else "")
  let config := config ++
    (match r.crop with
     | some c =>
       toString c.left ++ "x" ++ toString c.top ++ ":" ++
       toString c.right ++ "x" ++ toString c.bottom ++ "/"
     | none => "")
  let config := config ++
    (match resolveFitIn r.fitIn with
     | some s => s.render ++ "/"
     | none => "")
  let config := config ++
    (match r.resize with
     | some rz =>
       (if r.flipHorizontally then "-" else "") ++ rz.width.render ++ "x" ++
       (if r.flipVertically then "-" else "") ++ rz.height.render ++
       (match r.horizontalAlign with
        | some a => "/" ++ a.render
        | none => "") ++
       (match r.verticalAlign with
        | some a => "/" ++ a.render
        | none => "") ++ "/"
     | none => "")
  let config := config ++ (if r.smart then "smart/" else "")
  let config := config ++
    (if 0 < r.filters.length then
      "filters:" ++ String.intercalate ":" r.filters ++ "/"
     else "")
  config ++ r.image

/-- Per-character replacement: the source's `.replace(/x/g, "y")` on single
characters. -/
def replaceChar (a b : Char) (s : String) : String :=
  String.mk (s.data.map (fun c => if c = a then b else c))

/-- The unsigned path (src/url.ts line 293): the config string, prefixed with
"unsafe/" unless the request is a metadata request. -/
def unsignedPath (r : TransformRequest) (config : String) : String :=
  if metaOf r then config else "unsafe/" ++ config

/-- The signing step (src/url.ts lines 284-294): if `key` is truthy, the path
is the HMAC signature of the config, base64-encoded and made URL-safe,
followed by `/` and the config; otherwise the unsigned path. JavaScript
truthiness of the optional string `key` is rendered by matching and testing
for the empty string. -/
def finalPath (hmac : String → String → List Nat) (r : TransformRequest)
    (config : String) : String :=
  match r.key with
  | some k =>
    if k = "" then unsignedPath r config
    else
      replaceChar '/' '_' (replaceChar '+' '-' (encodeBase64 (hmac config k)))
        ++ "/" ++ config
  | none => unsignedPath r config

/-- The host-resolution step (src/url.ts lines 296-301): a truthy `host`
yields an absolute URL, otherwise the rooted relative path. -/
def resolveHost (r : TransformRequest) (path : String) : ThumborUrl :=
  match r.host with
  | some h =>
    if h = "" then ThumborUrl.relative path
    else ThumborUrl.absolute h path
  | none => ThumborUrl.relative path

/-- Embedding of `buildThumborUrl` (src/url.ts lines 148-302), parametrized by
the signing primitive so that its (non-)invocation is observable. -/
def buildThumborUrlWith (hmac : String → String → List Nat)
    (r : TransformRequest) : Except UrlError ThumborUrl :=
  match validate r with
  | some e => Except.error e
  | none => Except.ok (resolveHost r (finalPath hmac r (assembleConfig r)))

/-- `buildThumborUrl` with the real HMAC-SHA1 signer. -/
def buildThumborUrl : TransformRequest → Except UrlError ThumborUrl :=
  buildThumborUrlWith hmacSha1

/-- The request of upstream library-test Scenarios 1 and 2. -/
def reqScenario1 : TransformRequest :=
  { image := "my.server.com/some/path/to/image.jpg",
    key := some "my-security-key",
    resize := some { width := Dim.n 300, height := Dim.n 200 } }

/-- Upstream Scenario 1/2: signing of a known URL (src/unnamed/part_000). -/
theorem scenario1_check :
    buildThumborUrl reqScenario1 =
      Except.ok (ThumborUrl.relative
        "8ammJH8D-7tXy6kU3lTvoXlhu4o=/300x200/my.server.com/some/path/to/image.jpg") := by
  rfl

/-- Upstream Scenario 3: signed metadata request (src/unnamed/part_000). -/
theorem scenario3_check :
    buildThumborUrl
      { image := "my.server.com/some/path/to/image.jpg",
        key := some "my-security-key",
        endpoint := some Endpoint.metadata } =
      Except.ok (ThumborUrl.relative
        "Ps3ORJDqxlSQ8y00T29GdNAh2CY=/meta/my.server.com/some/path/to/image.jpg") := by
  rfl

/-- Upstream Scenario 4: signed smart request without resize
(src/unnamed/part_000): `smart/` is emitted on its own. -/
theorem scenario4_check :
    buildThumborUrl
      { image := "my.server.com/some/path/to/image.jpg",
        key := some "my-security-key",
        smart := true } =
      Except.ok (ThumborUrl.relative
        "-2NHpejRK2CyPAm61FigfQgJBxw=/smart/my.server.com/some/path/to/image.jpg") := by
  rfl

/-- Upstream Scenario 5: signed fit-in request without resize
(src/unnamed/part_000): the fit-in segment is emitted without resize. -/
theorem scenario5_check :
    buildThumborUrl
      { image := "my.server.com/some/path/to/image.jpg",
        key := some "my-security-key",
        fitIn := some (FitIn.flag true) } =
      Except.ok (ThumborUrl.relative
        "uvLnA6TJlF-Cc-L8z9pEtfasO3s=/fit-in/my.server.com/some/path/to/image.jpg") := by
  rfl

/-- Repository test `testComplexUnsafeBuild` (src/unnamed/part_002). -/
theorem complex_unsigned_check :
    buildThumborUrl
      { image := "a.com/b.png",
        crop := some { top := 10, left := 10, bottom := 90, right := 90 },
        resize := some { width := Dim.n 40, height := Dim.n 40 },
        filters := ["watermark(/unsafe/20x20/b.com/c.jpg,10,10,0)", "round_corner(5,0,0,0,1)"] } =
      Except.ok (ThumborUrl.relative
        "unsafe/10x10:90x90/40x40/filters:watermark(/unsafe/20x20/b.com/c.jpg,10,10,0):round_corner(5,0,0,0,1)/a.com/b.png") := by
  rfl

/-- Repository tests `testTrim`, `testResize` and `testResizeAndFlip`
(src/unnamed/part_002). -/
theorem trim_resize_flip_check :
    buildThumborUrl
      { image := "http://a.com/b.png",
        trim := some (Trim.record (some TrimPixelColor.topLeft) (some 100)) } =
      Except.ok (ThumborUrl.relative "unsafe/trim:top-left:100/http://a.com/b.png") ∧
    buildThumborUrl
      { image := "b.com/c.png",
        resize := some { width := Dim.orig, height := Dim.orig } } =
      Except.ok (ThumborUrl.relative "unsafe/origxorig/b.com/c.png") ∧
    buildThumborUrl
      { image := "a.com/b.png",
        resize := some { width := Dim.n 10, height := Dim.n 5 },
        flipHorizontally := true, flipVertically := true } =
      Except.ok (ThumborUrl.relative "unsafe/-10x-5/a.com/b.png") := by
  exact ⟨rfl, rfl, rfl⟩

/-- The metadata-marker segment (order 1). -/
def segMeta (r : TransformRequest) : String :=
  if metaOf r then "meta/" else ""

/-- The trim segment (order 2): `trim[:pixelColor[:tolerance]]/`. -/
def segTrim (r : TransformRequest) : String :=
  if trimTruthy r.trim then
    "trim" ++
      (match trimPixelColorOf r.trim with
       | some pc =>
         ":" ++ pc.render ++
           (if trimColorToleranceOf r.trim ≠ 0 then
             ":" ++ toString (trimColorToleranceOf r.trim)
            else "")
       | none => "") ++ "/"
  else ""

/-- The crop segment (order 3): `{left}x{top}:{right}x{bottom}/`. -/
def segCrop (r : TransformRequest) : String :=
  match r.crop with
  | some c =>
    toString c.left ++ "x" ++ toString c.top ++ ":" ++
    toString c.right ++ "x" ++ toString c.bottom ++ "/"
  | none => ""

/-- The fit-in segment (order 4): the style name, whenever `fitIn` is truthy,
with no dependence on `resize`. -/
def segFitIn (r : TransformRequest) : String :=
  match resolveFitIn r.fitIn with
  | some s => s.render ++ "/"
  | none => ""

/-- The resize segment (order 5): `[-]{width}x[-]{height}`, the optional
alignment values, and a terminating slash. Alignment is emitted whether or
not `smart` is set. -/
def segResize (r : TransformRequest) : String :=
  match r.resize with
  | some rz =>
    (if r.flipHorizontally then "-" else "") ++ rz.width.render ++ "x" ++
    (if r.flipVertically then "-" else "") ++ rz.height.render ++
    (match r.horizontalAlign with
     | some a => "/" ++ a.render
     | none => "") ++
    (match r.verticalAlign with
     | some a => "/" ++ a.render
     | none => "") ++ "/"
  | none => ""

/-- The smart segment (order 6): `smart/` whenever `smart` is set, its own
segment after the resize segment, with no dependence on `resize`. -/
def segSmart (r : TransformRequest) : String :=
  if r.smart then "smart/" else ""

/-- The filters segment (order 7): `filters:{f1}:{f2}:…/`. -/
def segFilters (r : TransformRequest) : String :=
  if 0 < r.filters.length then
    "filters:" ++ String.intercalate ":" r.filters ++ "/"
  else ""

/-- The config string decomposes into the seven segments followed by the raw
image, in the source's append order. -/
theorem assembleConfig_eq (r : TransformRequest) :
    assembleConfig r =
      segMeta r ++ (segTrim r ++ (segCrop r ++ (segFitIn r ++
        (segResize r ++ (segSmart r ++ (segFilters r ++ r.image)))))) := by
  simp only [assembleConfig, segMeta, segTrim, segCrop, segFitIn, segResize,
    segSmart, segFilters, String.empty_append, String.append_assoc]

/-- A failed validation aborts the call with that error, for any signer. -/
theorem buildWith_error (f : String → String → List Nat) (r : TransformRequest)
    (e : UrlError) (h : validate r = some e) :
    buildThumborUrlWith f r = Except.error e := by
  unfold buildThumborUrlWith
  rw [h]

/-- A passed validation yields the assembled, signed, host-resolved URL. -/
theorem buildWith_ok (f : String → String → List Nat) (r : TransformRequest)
    (h : validate r = none) :
    buildThumborUrlWith f r =
      Except.ok (resolveHost r (finalPath f r (assembleConfig r))) := by
  unfold buildThumborUrlWith
  rw [h]

/-- The call succeeds exactly when validation passes. -/
theorem buildWith_ok_iff (f : String → String → List Nat) (r : TransformRequest) :
    (∃ u, buildThumborUrlWith f r = Except.ok u) ↔ validate r = none := by
  unfold buildThumborUrlWith
  cases h : validate r <;> simp

/-- Host resolution does not alter the path component. -/
theorem resolveHost_path (r : TransformRequest) (p : String) :
    (resolveHost r p).path = p := by
  unfold resolveHost
  cases r.host with
  | none => rfl
  | some h =>
    by_cases hh : h = "" <;> simp [hh, ThumborUrl.path]

/-- Crop validation passes exactly on rectangles with non-negative top/left
and bottom/right strictly beyond top/left (and at least 1). -/
theorem validateCrop_none_iff (c : Crop) :
    validateCrop (some c) = none ↔
      0 ≤ c.top ∧ 0 ≤ c.left ∧ 1 ≤ c.bottom ∧ c.top < c.bottom ∧
      1 ≤ c.right ∧ c.left < c.right := by
  unfold validateCrop
  by_cases h1 : c.top < 0 <;> by_cases h2 : c.left < 0 <;>
    by_cases h3 : c.bottom < 1 ∨ c.bottom ≤ c.top <;>
    by_cases h4 : c.right < 1 ∨ c.right ≤ c.left <;>
    simp [h1, h2, h3, h4] <;> omega

/-- The validation region passes exactly when every block passes. -/
theorem validate_none_iff (r : TransformRequest) :
    validate r = none ↔
      ¬ r.image = "" ∧
      r.filters.any (fun f => jsTrim f == "") = false ∧
      validateResize r.resize = none ∧
      validateCrop r.crop = none ∧
      validateTrim r.trim = none := by
  unfold validate
  by_cases h1 : r.image = ""
  · simp [h1]
  · cases h2 : r.filters.any (fun f => jsTrim f == "") <;>
      cases h3 : validateResize r.resize <;>
      cases h4 : validateCrop r.crop <;>
      simp [h1, h2, h3, h4]

/-- The config assembly exactly as claim C2 words it (the spec's table): the
fit-in row requires `resize`, the resize row is the dimensions followed by
`/smart` when `smart` is set — suppressing alignment — else the optional
alignment values, and no other segment carries `smart`. -/
def specConfigC2 (r : TransformRequest) : String :=
  segMeta r ++
  segTrim r ++
  segCrop r ++
  (match resolveFitIn r.fitIn, r.resize with
   | some s, some _ => s.render ++ "/"
   | _, _ => "") ++
  (match r.resize with
   | some rz =>
     (if r.flipHorizontally then "-" else "") ++ rz.width.render ++ "x" ++
     (if r.flipVertically then "-" else "") ++ rz.height.render ++
     (if r.smart then "/smart"
      else
        (match r.horizontalAlign with
         | some a => "/" ++ a.render
         | none => "") ++
        (match r.verticalAlign with
         | some a => "/" ++ a.render
         | none => "")) ++ "/"
   | none => "") ++
  segFilters r ++ r.image

/-- A request with resize, smart and a horizontal alignment supplied. -/
def reqC2cex : TransformRequest :=
  { image := "i",
    resize := some { width := Dim.n 10, height := Dim.n 5 },
    smart := true,
    horizontalAlign := some HorizontalAlign.left }

/-- C2 as stated is false: with smart and an alignment both supplied, the code
emits the alignment and then `smart/` as its own segment, not the claimed
`WxH/smart` with alignment suppressed. -/
theorem c2_order_counterexample :
    assembleConfig reqC2cex = "10x5/left/smart/i" ∧
    specConfigC2 reqC2cex = "10x5/smart/i" ∧
    assembleConfig reqC2cex ≠ specConfigC2 reqC2cex := by
  exact ⟨rfl, rfl, by decide⟩

/-- The amended fixed segment order: metadata marker, trim, crop, fit-in
style (whenever `fitIn` is truthy), resize (dimensions then the optional
alignment values, independent of `smart`), smart (its own segment, emitted
whenever `smart` is set even without resize), filters, and the raw image;
every emitted segment before the image is terminated by `/` and nothing is
appended after the image. -/
def specConfigOrdered (r : TransformRequest) : String :=
  segMeta r ++ (segTrim r ++ (segCrop r ++ (segFitIn r ++
    (segResize r ++ (segSmart r ++ (segFilters r ++ r.image))))))

/-- C2 (amended): for every request the config string is assembled in the
fixed segment order metadata, trim, crop, fit-in, resize (with alignment),
smart, filters, image — smart being its own segment after resize rather than
a sub-part of the resize segment that suppresses alignment. -/
theorem c2_order_amended (r : TransformRequest) :
    assembleConfig r = specConfigOrdered r := by
  rw [assembleConfig_eq]
  rfl

/-- A request with resize, smart and a vertical alignment supplied. -/
def reqC3cex : TransformRequest :=
  { image := "i",
    resize := some { width := Dim.n 10, height := Dim.n 5 },
    smart := true,
    verticalAlign := some VerticalAlign.bottom }

/-- C3 as stated is false: with smart set and a vertical alignment supplied,
the config string does contain the alignment segment `/bottom/`. -/
theorem c3_smart_align_counterexample :
    reqC3cex.smart = true ∧
    reqC3cex.verticalAlign = some VerticalAlign.bottom ∧
    assembleConfig reqC3cex = "10x5/bottom/smart/i" ∧
    ("/bottom/".data <:+: (assembleConfig reqC3cex).data) := by
  exact ⟨rfl, rfl, rfl, by decide⟩

/-- C3 (amended): smart does not suppress alignment — for every request with
`smart` set and a resize, whatever combination of horizontal and/or vertical
alignment was supplied is emitted inside the resize segment, and `smart/`
follows as its own segment. -/
theorem c3_smart_align_amended (r : TransformRequest) (rz : ResizeOptions)
    (hs : r.smart = true) (hr : r.resize = some rz) :
    assembleConfig r =
      segMeta r ++ segTrim r ++ segCrop r ++ segFitIn r ++
      ((if r.flipHorizontally then "-" else "") ++ rz.width.render ++ "x" ++
       (if r.flipVertically then "-" else "") ++ rz.height.render ++
       (match r.horizontalAlign with
        | some a => "/" ++ a.render
        | none => "") ++
       (match r.verticalAlign with
        | some b => "/" ++ b.render
        | none => "") ++ "/") ++
      ("smart/" ++ (segFilters r ++ r.image)) := by
  rw [assembleConfig_eq]
  simp [segResize, segSmart, hr, hs, String.append_assoc]

/-- A request with resize, smart and both alignments, for the witness. -/
def reqC3w : TransformRequest :=
  { image := "i",
    resize := some { width := Dim.n 10, height := Dim.n 5 },
    smart := true,
    horizontalAlign := some HorizontalAlign.left,
    verticalAlign := some VerticalAlign.bottom }

/-- Witness for the amended C3, both at a request with both alignments and at
the vertical-only request of the counterexample. -/
theorem c3_smart_align_amended_witness :
    assembleConfig reqC3w = "10x5/left/bottom/smart/i" ∧
    assembleConfig reqC3cex = "10x5/bottom/smart/i" := by
  constructor
  · rw [c3_smart_align_amended reqC3w { width := Dim.n 10, height := Dim.n 5 }
      rfl rfl]
    rfl
  · rw [c3_smart_align_amended reqC3cex { width := Dim.n 10, height := Dim.n 5 }
      rfl rfl]
    rfl

/-- A request with `fitIn: true` and no resize. -/
def reqC4cex : TransformRequest :=
  { image := "i", fitIn := some (FitIn.flag true) }

/-- C4 as stated is false: with `fitIn` set and no resize, the fit-in segment
is still emitted (exactly as the repository's upstream Scenario 5 test
expects). -/
theorem c4_fitin_counterexample :
    reqC4cex.resize = none ∧
    assembleConfig reqC4cex = "fit-in/i" ∧
    ("fit-in/".data <+: (assembleConfig reqC4cex).data) := by
  exact ⟨rfl, rfl, by decide⟩

/-- C4 (amended): the fit-in style segment appears whenever `fitIn` is truthy
(boolean `true` or a style), with no dependence on whether `resize` is set. -/
theorem c4_fitin_amended (r : TransformRequest) (s : FitInStyle)
    (hf : resolveFitIn r.fitIn = some s) :
    assembleConfig r =
      segMeta r ++ segTrim r ++ segCrop r ++ (s.render ++ "/") ++
      (segResize r ++ segSmart r ++ segFilters r ++ r.image) := by
  rw [assembleConfig_eq]
  simp [segFitIn, hf, String.append_assoc]

/-- A request with a fit-in style and no resize, for the witness. -/
def reqC4w : TransformRequest :=
  { image := "i", fitIn := some (FitIn.style FitInStyle.fullFitIn) }

/-- Witness for the amended C4 at a concrete request without resize. -/
theorem c4_fitin_amended_witness :
    assembleConfig reqC4w = "full-fit-in/i" := by
  rw [c4_fitin_amended reqC4w FitInStyle.fullFitIn rfl]
  rfl

/-- The URL-safe substitution as claim C1 words it: `+` becomes `-`, `/`
becomes `_`, and every other character (padding included) is unchanged. -/
def b64UrlSubst (c : Char) : Char :=
  if c = '+' then '-' else if c = '/' then '_' else c

/-- The source's two global single-character replacements compose into the
pointwise substitution that changes only `+` and `/`. -/
theorem replaceChar_twice (s : String) :
    replaceChar '/' '_' (replaceChar '+' '-' s) =
      String.mk (s.data.map b64UrlSubst) := by
  unfold replaceChar
  simp only [List.map_map]
  refine congrArg String.mk (List.map_congr_left ?_)
  intro c _
  by_cases h1 : c = '+'
  · simp [h1, b64UrlSubst, Function.comp]
  · by_cases h2 : c = '/'
    · simp [h1, h2, b64UrlSubst, Function.comp]
    · simp [h1, h2, b64UrlSubst, Function.comp]

/-- C1: for every valid request with a (truthy) key, the returned path is
`{encodedSignature}/{configString}`, where the signature is the HMAC-SHA1
digest over the UTF-8 bytes of the config string keyed by the UTF-8 bytes of
the key, encoded as standard padded base64 and then rewritten character by
character with only `+` changed to `-` and `/` changed to `_`. -/
theorem c1_signed_path (r : TransformRequest) (k : String)
    (hv : validate r = none) (hk : r.key = some k) (hne : k ≠ "") :
    ∃ u, buildThumborUrl r = Except.ok u ∧
      u.path =
        String.mk ((encodeBase64 (hmacBytes (utf8Encode k)
          (utf8Encode (assembleConfig r)))).data.map b64UrlSubst)
          ++ "/" ++ assembleConfig r := by
  refine ⟨resolveHost r (finalPath hmacSha1 r (assembleConfig r)),
    buildWith_ok hmacSha1 r hv, ?_⟩
  rw [resolveHost_path]
  simp only [finalPath, hk]
  rw [if_neg hne, replaceChar_twice]
  rfl

/-- Witness for C1 at the upstream Scenario 1 request. -/
theorem c1_signed_path_witness :
    validate reqScenario1 = none ∧
    (∃ u, buildThumborUrl reqScenario1 = Except.ok u ∧
      u.path =
        String.mk ((encodeBase64 (hmacBytes (utf8Encode "my-security-key")
          (utf8Encode (assembleConfig reqScenario1)))).data.map b64UrlSubst)
          ++ "/" ++ assembleConfig reqScenario1) := by
  exact ⟨rfl, c1_signed_path reqScenario1 "my-security-key" rfl rfl (by decide)⟩

/-- C5: for every valid request whose key is absent (or empty, hence falsy),
the returned path starts with `meta/` and not with `unsafe/` when the
endpoint is metadata, and starts with `unsafe/` otherwise — so the rendered
relative URL starts with `/meta/` or `/unsafe/` respectively. -/
theorem c5_unsigned_output (r : TransformRequest)
    (hv : validate r = none) (hk : r.key = none ∨ r.key = some "") :
    ∃ u, buildThumborUrl r = Except.ok u ∧
      (metaOf r = true →
        ("meta/".data <+: u.path.data) ∧ ¬ ("unsafe/".data <+: u.path.data)) ∧
      (metaOf r = false → ("unsafe/".data <+: u.path.data)) := by
  refine ⟨resolveHost r (finalPath hmacSha1 r (assembleConfig r)),
    buildWith_ok hmacSha1 r hv, ?_, ?_⟩ <;> rw [resolveHost_path] <;>
    have hpath : finalPath hmacSha1 r (assembleConfig r) =
      unsignedPath r (assembleConfig r) := by
        rcases hk with h | h <;> simp [finalPath, h]
  · intro hm
    rw [hpath]
    unfold unsignedPath
    rw [if_pos hm]
    have hcfg : assembleConfig r =
        "meta/" ++ (segTrim r ++ (segCrop r ++ (segFitIn r ++
          (segResize r ++ (segSmart r ++ (segFilters r ++ r.image)))))) := by
      rw [assembleConfig_eq]
      simp [segMeta, hm]
    rw [hcfg, String.data_append]
    constructor
    · exact List.prefix_append _ _
    · intro hpre
      have h2 : ('u' :: "nsafe/".data) <+:
          ('m' :: ("eta/".data ++ (segTrim r ++ (segCrop r ++ (segFitIn r ++
            (segResize r ++ (segSmart r ++ (segFilters r ++ r.image)))))).data)) := hpre
      rw [List.cons_prefix_cons] at h2
      exact absurd h2.1 (by decide)
  · intro hm
    rw [hpath]
    unfold unsignedPath
    rw [if_neg (by simp [hm])]
    rw [String.data_append]
    exact List.prefix_append _ _

/-- The metadata request of upstream Scenario 3, without a key. -/
def reqC5meta : TransformRequest :=
  { image := "a.com/b.png", endpoint := some Endpoint.metadata }

/-- Witness for C5 at a concrete unsigned metadata request. -/
theorem c5_unsigned_output_witness :
    validate reqC5meta = none ∧
    (∃ u, buildThumborUrl reqC5meta = Except.ok u ∧
      (metaOf reqC5meta = true →
        ("meta/".data <+: u.path.data) ∧ ¬ ("unsafe/".data <+: u.path.data)) ∧
      (metaOf reqC5meta = false → ("unsafe/".data <+: u.path.data))) := by
  exact ⟨rfl, c5_unsigned_output reqC5meta rfl (Or.inl rfl)⟩

/-- C6: for every malformed request, the call fails with the first detected
validation error, identically for every signing function — the signer is
never invoked and no partial output is produced. -/
theorem c6_validation_aborts (r : TransformRequest) (e : UrlError)
    (h : validate r = some e) :
    buildThumborUrl r = Except.error e ∧
    ∀ f g : String → String → List Nat,
      buildThumborUrlWith f r = Except.error e ∧
      buildThumborUrlWith f r = buildThumborUrlWith g r := by
  refine ⟨buildWith_error hmacSha1 r e h, fun f g =>
    ⟨buildWith_error f r e h, ?_⟩⟩
  rw [buildWith_error f r e h, buildWith_error g r e h]

/-- The request with a blank image. -/
def reqBlankImage : TransformRequest := { image := "" }

/-- Witness for C6 at the blank-image request, with two distinct signers. -/
theorem c6_validation_aborts_witness :
    buildThumborUrl reqBlankImage =
      Except.error (UrlError.typeError "Image must not be blank.") ∧
    buildThumborUrlWith (fun _ _ => []) reqBlankImage =
      buildThumborUrlWith (fun _ _ => [0]) reqBlankImage := by
  obtain ⟨h1, h2⟩ := c6_validation_aborts reqBlankImage
    (UrlError.typeError "Image must not be blank.") rfl
  exact ⟨h1, (h2 (fun _ _ => []) (fun _ _ => [0])).2⟩

/-- C7: with all other fields valid, a resize of numeric width and height
both exactly 0 fails with the range error, while width 0 alone (height
positive or the original-size sentinel) and height 0 alone succeed. -/
theorem c7_resize_zero (r : TransformRequest) (w h : Dim)
    (himg : r.image ≠ "")
    (hfil : r.filters.any (fun f => jsTrim f == "") = false)
    (hcrop : validateCrop r.crop = none)
    (htrim : validateTrim r.trim = none)
    (hrz : r.resize = some { width := w, height := h }) :
    (w = Dim.n 0 ∧ h = Dim.n 0 →
      buildThumborUrl r =
        Except.error (UrlError.rangeError "Both width and height must not be zero.")) ∧
    (w = Dim.n 0 → (h = Dim.orig ∨ ∃ v : Int, h = Dim.n v ∧ 0 < v) →
      ∃ u, buildThumborUrl r = Except.ok u) ∧
    (h = Dim.n 0 → (w = Dim.orig ∨ ∃ v : Int, w = Dim.n v ∧ 0 < v) →
      ∃ u, buildThumborUrl r = Except.ok u) := by
  refine ⟨?_, ?_, ?_⟩
  · rintro ⟨hw, hh⟩
    subst hw hh
    have hval : validate r =
        some (UrlError.rangeError "Both width and height must not be zero.") := by
      simp [validate, himg, hfil, hrz, validateResize, dimNeg]
    exact buildWith_error hmacSha1 r _ hval
  · intro hw hcase
    subst hw
    have hres : validateResize r.resize = none := by
      rcases hcase with hh | ⟨v, hh, hv⟩
      · subst hh
        simp [hrz, validateResize, dimNeg]
      · subst hh
        simp [hrz, validateResize, dimNeg,
          show ¬(v < 0) by omega, show ¬(v = 0) by omega]
    exact ⟨_, buildWith_ok hmacSha1 r
      ((validate_none_iff r).mpr ⟨himg, hfil, hres, hcrop, htrim⟩)⟩
  · intro hh hcase
    subst hh
    have hres : validateResize r.resize = none := by
      rcases hcase with hw | ⟨v, hw, hv⟩
      · subst hw
        simp [hrz, validateResize, dimNeg]
      · subst hw
        simp [hrz, validateResize, dimNeg,
          show ¬(v < 0) by omega, show ¬(v = 0) by omega]
    exact ⟨_, buildWith_ok hmacSha1 r
      ((validate_none_iff r).mpr ⟨himg, hfil, hres, hcrop, htrim⟩)⟩

/-- A resize with both dimensions zero. -/
def reqBothZero : TransformRequest :=
  { image := "i", resize := some { width := Dim.n 0, height := Dim.n 0 } }

/-- A resize with width zero and height positive. -/
def reqWZero : TransformRequest :=
  { image := "i", resize := some { width := Dim.n 0, height := Dim.n 5 } }

/-- A resize with width the original-size sentinel and height zero. -/
def reqHZero : TransformRequest :=
  { image := "i", resize := some { width := Dim.orig, height := Dim.n 0 } }

/-- Witness for C7 at three concrete resizes. -/
theorem c7_resize_zero_witness :
    buildThumborUrl reqBothZero =
      Except.error (UrlError.rangeError "Both width and height must not be zero.") ∧
    (∃ u, buildThumborUrl reqWZero = Except.ok u) ∧
    (∃ u, buildThumborUrl reqHZero = Except.ok u) := by
  refine ⟨?_, ?_, ?_⟩
  · exact (c7_resize_zero reqBothZero (Dim.n 0) (Dim.n 0)
      (by decide) rfl rfl rfl rfl).1 ⟨rfl, rfl⟩
  · exact (c7_resize_zero reqWZero (Dim.n 0) (Dim.n 5)
      (by decide) rfl rfl rfl rfl).2.1 rfl (Or.inr ⟨5, rfl, by decide⟩)
  · exact (c7_resize_zero reqHZero Dim.orig (Dim.n 0)
      (by decide) rfl rfl rfl rfl).2.2 rfl (Or.inl rfl)

/-- C8: with a crop whose bottom equals its top the call always fails, and
with bottom exactly top + 1 (top and left non-negative, right at least 1 and
beyond left, everything else valid) it succeeds. -/
theorem c8_crop_bounds (r : TransformRequest) (c : Crop) (hc : r.crop = some c) :
    (c.bottom = c.top → ∀ u, buildThumborUrl r ≠ Except.ok u) ∧
    (r.image ≠ "" →
      r.filters.any (fun f => jsTrim f == "") = false →
      validateResize r.resize = none →
      validateTrim r.trim = none →
      c.bottom = c.top + 1 → 0 ≤ c.top → 0 ≤ c.left →
      1 ≤ c.right → c.left < c.right →
      ∃ u, buildThumborUrl r = Except.ok u) := by
  constructor
  · intro hbt u hok
    have hvn : validate r = none := by
      cases hvv : validate r with
      | none => rfl
      | some e =>
        rw [show buildThumborUrl r = buildThumborUrlWith hmacSha1 r from rfl,
          buildWith_error hmacSha1 r e hvv] at hok
        simp at hok
    have hcrop := ((validate_none_iff r).mp hvn).2.2.2.1
    rw [hc, validateCrop_none_iff] at hcrop
    omega
  · intro himg hfil hres htrim hbt htop hleft hright hlr
    refine ⟨_, buildWith_ok hmacSha1 r ((validate_none_iff r).mpr
      ⟨himg, hfil, hres, ?_, htrim⟩)⟩
    rw [hc, validateCrop_none_iff]
    omega

/-- A crop whose bottom equals its top. -/
def reqCropBad : TransformRequest :=
  { image := "i", crop := some { top := 2, left := 0, bottom := 2, right := 5 } }

/-- A crop whose bottom is its top plus one. -/
def reqCropGood : TransformRequest :=
  { image := "i", crop := some { top := 2, left := 0, bottom := 3, right := 5 } }

/-- Witness for C8 at two concrete crops. -/
theorem c8_crop_bounds_witness :
    (∀ u, buildThumborUrl reqCropBad ≠ Except.ok u) ∧
    (∃ u, buildThumborUrl reqCropGood = Except.ok u) := by
  constructor
  · exact (c8_crop_bounds reqCropBad
      { top := 2, left := 0, bottom := 2, right := 5 } rfl).1 rfl
  · exact (c8_crop_bounds reqCropGood
      { top := 2, left := 0, bottom := 3, right := 5 } rfl).2
      (by decide) rfl rfl rfl (by decide) (by decide) (by decide)
      (by decide) (by decide)

/-- Resize validation never produces the blank-image error. -/
theorem validateResize_no_image_msg (o : Option ResizeOptions) :
    validateResize o ≠ some (UrlError.typeError "Image must not be blank.") := by
  intro h
  cases o with
  | none => simp [validateResize] at h
  | some rz =>
    by_cases h1 : dimNeg rz.width = true <;>
    by_cases h2 : dimNeg rz.height = true <;>
    by_cases h3 : rz.width = Dim.n 0 ∧ rz.height = Dim.n 0 <;>
      simp [validateResize, h1, h2, h3] at h <;>
      exact absurd h (by decide)

/-- Crop validation never produces the blank-image error. -/
theorem validateCrop_no_image_msg (o : Option Crop) :
    validateCrop o ≠ some (UrlError.typeError "Image must not be blank.") := by
  intro h
  cases o with
  | none => simp [validateCrop] at h
  | some c =>
    by_cases h1 : c.top < 0 <;>
    by_cases h2 : c.left < 0 <;>
    by_cases h3 : c.bottom < 1 ∨ c.bottom ≤ c.top <;>
    by_cases h4 : c.right < 1 ∨ c.right ≤ c.left <;>
      simp [validateCrop, h1, h2, h3, h4] at h

/-- Trim validation never produces the blank-image error. -/
theorem validateTrim_no_image_msg (o : Option Trim) :
    validateTrim o ≠ some (UrlError.typeError "Image must not be blank.") := by
  intro h
  cases o with
  | none => simp [validateTrim] at h
  | some t =>
    cases t with
    | flag b => simp [validateTrim] at h
    | record v tol =>
      by_cases h1 : tol.getD 0 < 0 ∨ 442 < tol.getD 0 <;>
      by_cases h2 : 0 < tol.getD 0 ∧ v = none <;>
        simp [validateTrim, h1, h2] at h

/-- The validation region reports the blank-image error exactly when the
image is the empty string. -/
theorem validate_image_msg_iff (r : TransformRequest) :
    validate r = some (UrlError.typeError "Image must not be blank.") ↔
      r.image = "" := by
  constructor
  · intro hval
    by_contra himg
    unfold validate at hval
    rw [if_neg himg] at hval
    cases hfil : r.filters.any (fun f => jsTrim f == "") <;> rw [hfil] at hval
    · simp only [if_neg Bool.false_ne_true] at hval
      cases hres : validateResize r.resize with
      | some e =>
        rw [hres] at hval
        exact validateResize_no_image_msg r.resize (hres.trans hval)
      | none =>
        rw [hres] at hval
        cases hcr : validateCrop r.crop with
        | some e =>
          rw [hcr] at hval
          exact validateCrop_no_image_msg r.crop (hcr.trans hval)
        | none =>
          rw [hcr] at hval
          exact validateTrim_no_image_msg r.trim hval
    · rw [if_pos rfl] at hval
      exact absurd hval (by decide)
  · intro h
    simp [validate, h]

/-- The whitespace image request. -/
def reqSpaceImage : TransformRequest := { image := " " }

/-- C9: the image is rejected exactly when it is the empty string — a
whitespace-only image such as a single space is accepted and embedded
verbatim — while a filter that is blank after trimming is rejected. -/
theorem c9_image_blankness (r : TransformRequest) :
    (r.image = "" →
      buildThumborUrl r =
        Except.error (UrlError.typeError "Image must not be blank.")) ∧
    (r.image ≠ "" →
      buildThumborUrl r ≠
        Except.error (UrlError.typeError "Image must not be blank.")) ∧
    buildThumborUrl reqSpaceImage =
      Except.ok (ThumborUrl.relative "unsafe/ ") ∧
    buildThumborUrl { image := " ", filters := [" "] } =
      Except.error (UrlError.typeError "Filter must not be blank.") := by
  refine ⟨?_, ?_, rfl, rfl⟩
  · intro h
    exact buildWith_error hmacSha1 r _ ((validate_image_msg_iff r).mpr h)
  · intro himg heq
    cases hv : validate r with
    | none =>
      rw [show buildThumborUrl r = buildThumborUrlWith hmacSha1 r from rfl,
        buildWith_ok hmacSha1 r hv] at heq
      simp at heq
    | some e =>
      rw [show buildThumborUrl r = buildThumborUrlWith hmacSha1 r from rfl,
        buildWith_error hmacSha1 r e hv] at heq
      injection heq with he
      subst he
      exact absurd ((validate_image_msg_iff r).mp hv) himg

/-- Witness for C9 at the blank and whitespace images. -/
theorem c9_image_blankness_witness :
    buildThumborUrl reqBlankImage =
      Except.error (UrlError.typeError "Image must not be blank.") ∧
    buildThumborUrl reqSpaceImage ≠
      Except.error (UrlError.typeError "Image must not be blank.") := by
  exact ⟨(c9_image_blankness reqBlankImage).1 rfl,
    (c9_image_blankness reqSpaceImage).2.1 (by decide)⟩

/-- The signing step collapses to the unsigned path when the key is falsy. -/
theorem finalPath_key_falsy (f : String → String → List Nat)
    (r : TransformRequest) (config : String)
    (hk : r.key = none ∨ r.key = some "") :
    finalPath f r config = unsignedPath r config := by
  rcases hk with h | h <;> simp [finalPath, h]

/-- C10: an empty-string key is treated as absent — the result equals the
keyless result and is built unsigned — and an empty-string host is treated
as absent — the result equals the hostless result and is the rooted relative
path, never an absolute URL. -/
theorem c10_empty_key_host (r : TransformRequest) :
    (r.key = some "" →
      buildThumborUrl r = buildThumborUrl { r with key := none } ∧
      (validate r = none →
        ∃ u, buildThumborUrl r = Except.ok u ∧
          u.path = unsignedPath r (assembleConfig r))) ∧
    (r.host = some "" →
      buildThumborUrl r = buildThumborUrl { r with host := none } ∧
      (validate r = none →
        ∃ p, buildThumborUrl r = Except.ok (ThumborUrl.relative p))) := by
  constructor
  · intro hkey
    constructor
    · show buildThumborUrlWith hmacSha1 r =
        buildThumborUrlWith hmacSha1 { r with key := none }
      unfold buildThumborUrlWith
      have hva : validate { r with key := none } = validate r := rfl
      rw [hva]
      cases hval : validate r with
      | some e => rfl
      | none =>
        rw [finalPath_key_falsy hmacSha1 r _ (Or.inr hkey)]
        rfl
    · intro hv
      refine ⟨_, buildWith_ok hmacSha1 r hv, ?_⟩
      rw [resolveHost_path, finalPath_key_falsy hmacSha1 r _ (Or.inr hkey)]
  · intro hhost
    have hrel : ∀ p, resolveHost r p = ThumborUrl.relative p := by
      intro p
      simp [resolveHost, hhost]
    constructor
    · show buildThumborUrlWith hmacSha1 r =
        buildThumborUrlWith hmacSha1 { r with host := none }
      unfold buildThumborUrlWith
      have hva : validate { r with host := none } = validate r := rfl
      rw [hva]
      cases hval : validate r with
      | some e => rfl
      | none =>
        rw [hrel]
        rfl
    · intro hv
      refine ⟨finalPath hmacSha1 r (assembleConfig r), ?_⟩
      rw [show buildThumborUrl r = buildThumborUrlWith hmacSha1 r from rfl,
        buildWith_ok hmacSha1 r hv, hrel]

/-- A request with empty-string key and host. -/
def reqC10 : TransformRequest :=
  { image := "i", key := some "", host := some "" }

/-- Witness for C10 at a request with empty key and empty host. -/
theorem c10_empty_key_host_witness :
    (buildThumborUrl reqC10 = buildThumborUrl { reqC10 with key := none } ∧
      (∃ u, buildThumborUrl reqC10 = Except.ok u ∧
        u.path = unsignedPath reqC10 (assembleConfig reqC10))) ∧
    (buildThumborUrl reqC10 = buildThumborUrl { reqC10 with host := none } ∧
      (∃ p, buildThumborUrl reqC10 = Except.ok (ThumborUrl.relative p))) := by
  obtain ⟨h1, h2⟩ := c10_empty_key_host reqC10
  obtain ⟨h1a, h1b⟩ := h1 rfl
  obtain ⟨h2a, h2b⟩ := h2 rfl
  exact ⟨⟨h1a, h1b rfl⟩, ⟨h2a, h2b rfl⟩⟩

end Thumbor
